import Mathlib

/-!
Verification of the acquisition layer of the `irminsul` repository:
the packet-capture backends (`src/capture.rs`, `src/capture/pktmon_backend.rs`,
`src/capture/pcap_backend.rs`) and the Wish URL discovery monitor
(`src/wish.rs`), shallowly embedded in Lean 4.

External libraries (the `pcap`/`pktmon` crates, the `regex` crate, the
filesystem and the network) are modelled as oracles: each embedded function
takes the outcomes of its external calls as explicit arguments, in the order
the source performs them, and the repository's own control flow is translated
faithfully.
-/

namespace Irminsul

instance {ε α : Type} [DecidableEq ε] [DecidableEq α] : DecidableEq (Except ε α)
  | .ok a, .ok b => decidable_of_iff (a = b) (by simp)
  | .ok _, .error _ => .isFalse (by simp)
  | .error _, .ok _ => .isFalse (by simp)
  | .error a, .error b => decidable_of_iff (a = b) (by simp)

/-- An opaque error payload, standing for `anyhow::Error`: only its message
is observable. -/
structure AnyError where
  msg : String
deriving DecidableEq, Repr

/-- Embedding of `CaptureError` from `src/capture.rs` (lines 13-18): the unified failure
taxonomy of the capture backends. -/
inductive CaptureError where
  | Filter (error : AnyError)
  | Capture (has_captured : Bool) (error : AnyError)
  | CaptureClosed
  | ChannelClosed
deriving DecidableEq, Repr

/-- Embedding of `PORT_RANGE` from `src/capture.rs` line 9. -/
def PORT_RANGE : Nat × Nat := (22101, 22102)

/-! ## Kernel-monitor backend (`src/capture/pktmon_backend.rs`) -/

/-- The observable part of a `pktmon::filter::PktMonFilter` as built by
`PktmonBackend::new`: a name, the UDP transport selector, and a port. -/
structure PktMonFilter where
  name : String
  transport_udp : Bool
  port : Nat
deriving DecidableEq, Repr

/-- Oracle for the three fallible external calls `PktmonBackend::new`
performs, in source order: `Capture::new()`, then `add_filter` for each of
the two port filters. -/
structure PktmonEnv where
  capture_new : Except AnyError Unit
  add_filter_1 : Except AnyError Unit
  add_filter_2 : Except AnyError Unit
deriving DecidableEq, Repr

/-- The state a successfully constructed kernel-monitor backend carries that
the spec talks about: the filters actually installed on the session. -/
structure PktmonBackend where
  installed_filters : List PktMonFilter
deriving DecidableEq, Repr

/-- The first filter built in `PktmonBackend::new` (lines 20-25):
UDP, port `PORT_RANGE.0`. -/
def pktmonFilter1 : PktMonFilter :=
  { name := "UDP Filter", transport_udp := true, port := PORT_RANGE.1 }

/-- The second filter built in `PktmonBackend::new` (lines 31-36):
UDP, port `PORT_RANGE.1`. -/
def pktmonFilter2 : PktMonFilter :=
  { name := "UDP Filter", transport_udp := true, port := PORT_RANGE.2 }

/-- Embedding of `PktmonBackend::new` (`src/capture/pktmon_backend.rs` lines 14-45):
open the capture session (failure maps to `Capture{has_captured:false}`),
then install the two UDP port filters in turn (failure maps to `Filter`);
each failure aborts construction via `?`. -/
def PktmonBackend.new (env : PktmonEnv) : Except CaptureError PktmonBackend :=
  match env.capture_new with
  | .error e => .error (.Capture false e)
  | .ok () =>
    match env.add_filter_1 with
    | .error e => .error (.Filter e)
    | .ok () =>
      match env.add_filter_2 with
      | .error e => .error (.Filter e)
      | .ok () => .ok { installed_filters := [pktmonFilter1, pktmonFilter2] }

/-! ## Multi-device backend construction (`src/capture/pcap_backend.rs`) -/

/-- Embedding of `pcap::ConnectionStatus`. -/
inductive ConnectionStatus where
  | Unknown
  | Connected
  | Disconnected
  | NotApplicable
deriving DecidableEq, Repr

/-- A `pcap::Device` together with the oracle outcomes of the external calls
`setup_device_capture` would perform on it, in source order:
`Capture::from_device`, `.open()`, and `.filter(...)`. -/
structure Device where
  name : String
  desc : Option String
  connection_status : ConnectionStatus
  from_device : Except AnyError Unit
  open_capture : Except AnyError Unit
  install_filter : Except AnyError Unit
deriving DecidableEq, Repr

/-- Embedding of `PcapBackend::get_device_identifier` (lines 13-19). -/
def get_device_identifier (device : Device) : String :=
  device.name ++ " (desc " ++ device.desc.getD "None" ++ ")"

/-- Embedding of `PcapBackend::should_capture_on_device` (lines 21-23): only devices whose
link status is `Connected` are candidates. -/
def should_capture_on_device (device : Device) : Bool :=
  device.connection_status == .Connected

/-- Embedding of `PcapBackend::setup_device_capture` (lines 95-118): `from_device` and
`open` failures map to `Capture{has_captured:false}`, filter-install failure
maps to `Filter`; success returns the device identifier (standing for the
identifier-and-handle pair). -/
def setup_device_capture (device : Device) : Except CaptureError String :=
  match device.from_device with
  | .error e => .error (.Capture false e)
  | .ok () =>
    match device.open_capture with
    | .error e => .error (.Capture false e)
    | .ok () =>
      match device.install_filter with
      | .error e => .error (.Filter e)
      | .ok () => .ok (get_device_identifier device)

/-- The device loop of `PcapBackend::new` (lines 47-64): skip devices that
fail `should_capture_on_device` (never attempted), attempt setup on the rest,
swallow per-device failures. Returns the successful identifiers in order and
the list of devices on which setup was attempted. -/
def pcap_try_devices : List Device → List String × List Device
  | [] => ([], [])
  | device :: rest =>
    let (succ, attempted) := pcap_try_devices rest
    if should_capture_on_device device then
      match setup_device_capture device with
      | .ok capture => (capture :: succ, device :: attempted)
      | .error _ => (succ, device :: attempted)
    else
      (succ, attempted)

/-- The constructed multi-device backend state the spec talks about: the
identifiers of the devices whose capture threads were spawned. -/
structure PcapBackend where
  capturing_devices : List String
deriving DecidableEq, Repr

/-- Embedding of `PcapBackend::new` (lines 25-93): enumerate devices (enumeration failure
maps to `Capture{has_captured:false}`), try setup on every `Connected`
device swallowing failures, fail with
`Capture{has_captured:false, "No capture device available"}` when the
successful set is empty, otherwise spawn one thread per successful device. -/
def PcapBackend.new (device_list : Except AnyError (List Device)) :
    Except CaptureError PcapBackend :=
  match device_list with
  | .error e => .error (.Capture false e)
  | .ok devices =>
    let successful_captures := (pcap_try_devices devices).1
    if successful_captures.isEmpty then
      .error (.Capture false ⟨"No capture device available"⟩)
    else
      .ok { capturing_devices := successful_captures }

/-! ## Per-device capture thread (`PcapBackend::packet_loop`, lines 120-156) -/

/-- One outcome of `capture.next_packet()` on a device: a packet's bytes, or
a device read error. -/
inductive ReadResult where
  | packet (data : List Nat)
  | readError (e : AnyError)
deriving DecidableEq, Repr

/-- One `packet_tx.send` call made by a capture thread: the payload passed to
`send`, and whether the channel accepted it (`delivered = false` models the
receiver having been dropped, so `send` returned `Err`). -/
structure SendAttempt where
  payload : Except CaptureError (List Nat)
  delivered : Bool
deriving DecidableEq, Repr

/-- Why a capture thread's loop ended: the failed push (receiver dropped),
a device read error, or the modelled read sequence being exhausted (the real
loop would simply keep blocking on the next read). -/
inductive LoopEnd where
  | channelClosed
  | captureError
  | ranOut
deriving DecidableEq, Repr

/-- The body of `PcapBackend::packet_loop`, with the channel modelled by
`open_for`: the receiver is dropped after accepting `open_for` send calls,
so the send call with zero-based index `calls` succeeds iff
`calls < open_for`. `has_captured` is the loop's local flag. Returns the
send calls made, in order, and why the loop ended. -/
def packet_loop_go (open_for : Nat) :
    List ReadResult → Nat → Bool → List SendAttempt × LoopEnd
  | [], _, _ => ([], .ranOut)
  | .packet data :: rest, calls, _ =>
    if calls < open_for then
      (⟨.ok data, true⟩ :: (packet_loop_go open_for rest (calls + 1) true).1,
        (packet_loop_go open_for rest (calls + 1) true).2)
    else
      ([⟨.ok data, false⟩], .channelClosed)
  | .readError e :: _rest, calls, has_captured =>
    ([⟨.error (.Capture has_captured e), decide (calls < open_for)⟩],
      .captureError)

/-- Embedding of `PcapBackend::packet_loop` (lines 120-156) run against a sequence of
device read outcomes: `has_captured` starts `false`, no send call has been
made yet. -/
def packet_loop (reads : List ReadResult) (open_for : Nat) :
    List SendAttempt × LoopEnd :=
  packet_loop_go open_for reads 0 false

/-! ## Wish URL discovery monitor (`src/wish.rs`)

Filesystem, regex and network calls are oracles:
* a log line is represented by the first match of `game_data_re` in it
  (`None` when the line has no match), since `Wish::get_data_dir` only looks
  at `captures_iter(&line).next()`;
* a cache file's content is represented by the ordered list of matches of
  `url_re` over it, since `handle_web_cache_dir_update` only looks at
  `captures_iter(&strings)`;
* directory entries carry the metadata `get_web_cache_dir` reads, with
  modification times as nanoseconds since `UNIX_EPOCH` (the epoch is `0`).
-/

/-- Embedding of `Wish::get_data_dir` (`src/wish.rs` lines 109-127): scan the log lines
in order; on the first line whose `game_data_re` match is present, return
that match; if no line matches, fail. A line is modelled by
`Option String`: the first regex match in it, if any. -/
def get_data_dir : List (Option String) → Except AnyError String
  | [] => .error ⟨"Can't find game data path"⟩
  | some game_data_path :: _ => .ok game_data_path
  | none :: rest => get_data_dir rest

/-- One entry yielded by `fs::read_dir` on the `webCaches` folder: its path,
whether its metadata says it is a directory, and its modification time in
nanoseconds since `UNIX_EPOCH`. -/
structure DirEntry where
  path : String
  is_dir : Bool
  modified : Nat
deriving DecidableEq, Repr

/-- The `while let Some(entry) = dir.next_entry()` loop of
`get_web_cache_dir` (`src/wish.rs` lines 178-188): `latest_dir` starts at
`(UNIX_EPOCH, None)`; non-directories are skipped; an entry replaces
`latest_dir` iff its modification time is strictly greater. -/
def scan_web_caches : List DirEntry → Nat × Option String → Nat × Option String
  | [], latest_dir => latest_dir
  | entry :: rest, latest_dir =>
    if !entry.is_dir then
      scan_web_caches rest latest_dir
    else if entry.modified > latest_dir.1 then
      scan_web_caches rest (entry.modified, some entry.path)
    else
      scan_web_caches rest latest_dir

/-- Embedding of `get_web_cache_dir` (`src/wish.rs` lines 172-193) given the entries of
the `webCaches` folder: the scan's surviving path, or an error when it is
`None`. -/
def get_web_cache_dir (entries : List DirEntry) : Except AnyError String :=
  match (scan_web_caches entries (0, none)).2 with
  | some path => .ok path
  | none => .error ⟨"Unable to find directory in webCaches"⟩

/-- The monitor's mutable state (`struct Wish`, `src/wish.rs` lines 18-25):
the log path, the currently watched cache path if any, and the last
published URL (`prev_url`, initially `""`). The `url_tx` side is modelled by
the action trace. -/
structure WishState where
  output_log_path : String
  web_cache_path : Option String
  prev_url : String
deriving DecidableEq, Repr

/-- The externally visible actions the monitor performs, in order:
watcher registration changes, a cache-file extraction attempt (the body of
`handle_web_cache_dir_update` reaching its file read), the network
validation call, a send on `url_tx`, and the `tracing::info!` wrappers of
`Wish::monitor` around failed handler calls. -/
inductive Action where
  | unwatch (path : String)
  | watch (path : String)
  | extract (path : String)
  | validate (url : String)
  | publish (url : String)
  | logInfo (msg : String)
deriving DecidableEq, Repr

/-- Oracle for one run of `Wish::handle_web_cache_dir_update`:
the outcome of `fs::read(&data_path)` represented as the ordered list of
`url_re` matches of the file's content (`none` when the read fails), and the
outcome of `validate_url`. -/
structure CacheUpdateEnv where
  read_matches : Option (List String)
  validate_result : Except AnyError Unit
deriving DecidableEq, Repr

/-- Embedding of `Wish::handle_web_cache_dir_update` (`src/wish.rs` lines 129-160):
return `Ok` at once when no cache path is set; read the file (propagating a
read failure); take the *last* `url_re` match as the candidate URL, failing
when there is none; return `Ok` without validating or publishing when the
candidate equals `prev_url`; otherwise validate (propagating a validation
failure without touching state); on success record the URL in `prev_url` and
send it on `url_tx`. Returns the new state, the action trace, and the
`Result`. -/
def handle_web_cache_dir_update (st : WishState) (env : CacheUpdateEnv) :
    WishState × List Action × Except AnyError Unit :=
  match st.web_cache_path with
  | none => (st, [], .ok ())
  | some data_path =>
    match env.read_matches with
    | none => (st, [.extract data_path], .error ⟨"could not open file"⟩)
    | some url_matches =>
      match url_matches.getLast? with
      | none => (st, [.extract data_path], .error ⟨"Can't find URL"⟩)
      | some url =>
        if url = st.prev_url then
          (st, [.extract data_path], .ok ())
        else
          match env.validate_result with
          | .error e => (st, [.extract data_path, .validate url], .error e)
          | .ok () =>
            ({ st with prev_url := url },
              [.extract data_path, .validate url, .publish url], .ok ())

/-- Oracle for one run of `Wish::handle_log_update`: the log lines read by
`get_data_dir` (`none` when the log cannot be opened), the `webCaches`
entries read by `get_web_cache_dir` (`none` when `read_dir` fails), and the
oracle for the immediate `handle_web_cache_dir_update` call. -/
structure LogUpdateEnv where
  log_lines : Option (List (Option String))
  web_cache_entries : Option (List DirEntry)
  cache_env : CacheUpdateEnv
deriving DecidableEq, Repr

/-- Embedding of `Wish::get_web_cache_path` (`src/wish.rs` lines 100-107): derive the
data dir from the log, pick the freshest `webCaches` subdirectory, then
append `Cache/Cache_Data/data_2`. -/
def get_web_cache_path (env : LogUpdateEnv) : Except AnyError String :=
  match env.log_lines with
  | none => .error ⟨"could not open output_log"⟩
  | some lines =>
    match get_data_dir lines with
    | .error e => .error e
    | .ok _data_dir =>
      match env.web_cache_entries with
      | none => .error ⟨"could not open directory webCaches"⟩
      | some entries =>
        match get_web_cache_dir entries with
        | .error e => .error e
        | .ok web_cache_path => .ok (web_cache_path ++ "/Cache/Cache_Data/data_2")

/-- Embedding of `Wish::handle_log_update` (`src/wish.rs` lines 73-98): compute the new
cache path (propagating failure before any watch change); take and unwatch
the old path if one was watched; record and watch the new path; then
immediately run `handle_web_cache_dir_update`, logging (not propagating) its
failure. -/
def handle_log_update (st : WishState) (env : LogUpdateEnv) :
    WishState × List Action × Except AnyError Unit :=
  match get_web_cache_path env with
  | .error e => (st, [], .error e)
  | .ok web_cache_path =>
    let unwatch_actions :=
      match st.web_cache_path with
      | some old_cache_path => [Action.unwatch old_cache_path]
      | none => []
    let st2 := { st with web_cache_path := some web_cache_path }
    let cache_run := handle_web_cache_dir_update st2 env.cache_env
    let log_actions :=
      match cache_run.2.2 with
      | .error e => [Action.logInfo ("no url found in web cache dir: " ++ e.msg)]
      | .ok () => []
    (cache_run.1,
      unwatch_actions ++ [Action.watch web_cache_path] ++ cache_run.2.1
        ++ log_actions, .ok ())

/-- One `DebouncedEvent` received by `Wish::monitor`, together with the
oracles for the handler it would trigger: `log_env` is consumed when the
event is for the output log, `cache_env` when it is for the watched cache
path. -/
structure DebEvent where
  path : String
  log_env : LogUpdateEnv
  cache_env : CacheUpdateEnv
deriving DecidableEq, Repr

/-- The body of the `for event in events` loop of `Wish::monitor`
(`src/wish.rs` lines 55-66), for one event: an event for the output log runs
`handle_log_update`, an event for the currently watched cache path runs
`handle_web_cache_dir_update`; either handler's failure is logged via
`tracing::info!`; any other event is ignored. -/
def handle_event (st : WishState) (event : DebEvent) : WishState × List Action :=
  if event.path = st.output_log_path then
    let run := handle_log_update st event.log_env
    let log_actions :=
      match run.2.2 with
      | .error e =>
        [Action.logInfo ("handle log didn't find web cache dir: " ++ e.msg)]
      | .ok () => []
    (run.1, run.2.1 ++ log_actions)
  else
    match st.web_cache_path with
    | some web_cache_dir =>
      if event.path = web_cache_dir then
        let run := handle_web_cache_dir_update st event.cache_env
        let log_actions :=
          match run.2.2 with
          | .error e =>
            [Action.logInfo ("no url found in web cache dir: " ++ e.msg)]
          | .ok () => []
        (run.1, run.2.1 ++ log_actions)
      else
        (st, [])
    | none => (st, [])

/-- The `for event in events` loop of `Wish::monitor` (`src/wish.rs` lines
55-67): fold `handle_event` over the batch, accumulating the trace. -/
def handle_events (st : WishState) : List DebEvent → WishState × List Action
  | [] => (st, [])
  | event :: rest =>
    ((handle_events (handle_event st event).1 rest).1,
      (handle_event st event).2 ++
        (handle_events (handle_event st event).1 rest).2)

/-- The `while let Some(Ok(events)) = self.file_events.recv().await` loop of
`Wish::monitor` (`src/wish.rs` lines 54-68) over the modelled channel
contents: the list ends where `recv` would return `None` (channel closed).
An `Err` batch of watcher errors fails the `Some(Ok(..))` pattern, so the
loop exits there, processing nothing further and logging nothing. -/
def monitor_loop (st : WishState) :
    List (Except (List AnyError) (List DebEvent)) → WishState × List Action
  | [] => (st, [])
  | .error _ :: _ => (st, [])
  | .ok events :: rest =>
    ((monitor_loop (handle_events st events).1 rest).1,
      (handle_events st events).2 ++
        (monitor_loop (handle_events st events).1 rest).2)

/-- Oracle for the prologue of `Wish::monitor` (lines 44-52): the combined
outcome of re-resolving `output_log_path()?` and of
`watcher().watch(&output_log_path, ..)?` (either failure returns early with
`Err`), and the oracle for the proactive initial `handle_log_update`. -/
structure MonitorEnv where
  initial_watch : Except AnyError Unit
  initial_log_env : LogUpdateEnv
deriving DecidableEq, Repr

/-- Embedding of `Wish::monitor` (`src/wish.rs` lines 43-71): watch the log path
(propagating failure), proactively run `handle_log_update` once (logging its
failure), then run the event loop; when the loop exits — channel closed or
an `Err` batch received — return `Ok(())`. -/
def monitor (st : WishState) (env : MonitorEnv)
    (stream : List (Except (List AnyError) (List DebEvent))) :
    WishState × List Action × Except AnyError Unit :=
  match env.initial_watch with
  | .error e => (st, [], .error e)
  | .ok () =>
    let init := handle_log_update st env.initial_log_env
    let log_actions :=
      match init.2.2 with
      | .error e =>
        [Action.logInfo ("handle log didn't find web cache dir: " ++ e.msg)]
      | .ok () => []
    ((monitor_loop init.1 stream).1,
      Action.watch st.output_log_path ::
        (init.2.1 ++ log_actions ++ (monitor_loop init.1 stream).2), .ok ())

/-- The URLs sent on `url_tx`, in order, within an action trace. -/
def publishes : List Action → List String
  | [] => []
  | .publish url :: rest => url :: publishes rest
  | _ :: rest => publishes rest

/-- The last element of `urls`, or `prev` when `urls` is empty: the value of
`prev_url` after the publications `urls` starting from `prev`. -/
def lastPub (prev : String) : List String → String
  | [] => prev
  | u :: rest => lastPub u rest

/-- Returns `true` iff each element of the list differs from its predecessor, with
`prev` as the predecessor of the first element: no value is repeated twice
in a row. -/
def distinctFrom (prev : String) : List String → Bool
  | [] => true
  | u :: rest => (u != prev) && distinctFrom u rest

/-- Predicate `PubSeq prev urls next`: starting from last-published value `prev`, the
publication segment `urls` never repeats a value twice in a row (nor starts
with `prev`), and leaves `next` as the last-published value (`prev` again
when the segment is empty). This is the invariant each handler step
preserves on `prev_url`. -/
def PubSeq (prev : String) (urls : List String) (next : String) : Prop :=
  distinctFrom prev urls = true ∧ lastPub prev urls = next

/-! ## C1: which log line determines the data directory -/

/-- C1, counterexample: a log whose two lines both match the
session-data-directory pattern. `Wish::get_data_dir` returns the match of
the FIRST matching line, not of the last one, because the scan loop
(`src/wish.rs` lines 118-124) executes `return Ok(..)` on the first hit.
The claim, which says the last matching line is used, is therefore false
on this file. -/
theorem get_data_dir_counterexample :
    get_data_dir [some "C:/GameA/GenshinImpact_Data",
        some "D:/GameB/GenshinImpact_Data"] =
      .ok "C:/GameA/GenshinImpact_Data" ∧
    get_data_dir [some "C:/GameA/GenshinImpact_Data",
        some "D:/GameB/GenshinImpact_Data"] ≠
      .ok "D:/GameB/GenshinImpact_Data" := by
  refine ⟨rfl, ?_⟩
  decide

/-- C1, amended: for every log file whose lines contain matches of the
session-data-directory pattern, `Wish::get_data_dir` derives the game-data
directory from the FIRST matching line of the file (the match found on the
first line for which the pattern yields one). -/
theorem get_data_dir_first_matching_line (lines : List (Option String))
    (i : Nat) (p : String) (hi : lines[i]? = some (some p))
    (hbefore : ∀ j, j < i → lines[j]? = some none) :
    get_data_dir lines = .ok p := by
  induction lines generalizing i with
  | nil => simp at hi
  | cons a as ih =>
    cases i with
    | zero =>
      simp at hi
      subst hi
      rfl
    | succ i =>
      have ha := hbefore 0 (Nat.succ_pos _)
      simp at ha
      subst ha
      exact ih i (by simpa using hi)
        (fun j hj => by simpa using hbefore (j + 1) (Nat.succ_lt_succ hj))

/-- Witness for `get_data_dir_first_matching_line` at a concrete log. -/
theorem get_data_dir_first_matching_line_witness :
    get_data_dir [none, some "E:/Genshin/YuanShen_Data"] =
      .ok "E:/Genshin/YuanShen_Data" :=
  get_data_dir_first_matching_line _ 1 _ rfl
    (by
      intro j hj
      have hj0 : j = 0 := by omega
      subst hj0
      rfl)

/-! ## C2: kernel-monitor backend construction failures -/

/-- C2, counterexample: the capture session opens but the first UDP port
filter cannot be installed. `PktmonBackend::new` then fails with
`CaptureError::Filter` (line 29 of `src/capture/pktmon_backend.rs`), not
with `CaptureError::Capture{has_captured:false}` as the claim states. -/
theorem pktmon_new_filter_error_counterexample :
    PktmonBackend.new
        ⟨Except.ok (), Except.error ⟨"filter rejected"⟩, Except.ok ()⟩ =
      .error (.Filter ⟨"filter rejected"⟩) ∧
    PktmonBackend.new
        ⟨Except.ok (), Except.error ⟨"filter rejected"⟩, Except.ok ()⟩ ≠
      .error (.Capture false ⟨"filter rejected"⟩) := by
  refine ⟨rfl, ?_⟩
  decide

/-- C2, amended: `PktmonBackend::new` fails the whole construction on any of
its three fallible steps — a session-open failure is reported as
`CaptureError::Capture` with `has_captured = false`, a failure to install
either UDP port filter is reported as `CaptureError::Filter` — and a
backend is returned only when the session opened and BOTH filters were
installed, so no partially-filtered backend is ever returned. -/
theorem pktmon_new_fail_fast (env : PktmonEnv) :
    (∀ e, env.capture_new = .error e →
      PktmonBackend.new env = .error (.Capture false e)) ∧
    (∀ e, env.capture_new = .ok () → env.add_filter_1 = .error e →
      PktmonBackend.new env = .error (.Filter e)) ∧
    (∀ e, env.capture_new = .ok () → env.add_filter_1 = .ok () →
      env.add_filter_2 = .error e →
      PktmonBackend.new env = .error (.Filter e)) ∧
    (∀ backend, PktmonBackend.new env = .ok backend →
      backend.installed_filters = [pktmonFilter1, pktmonFilter2] ∧
      env.capture_new = .ok () ∧ env.add_filter_1 = .ok () ∧
      env.add_filter_2 = .ok ()) := by
  obtain ⟨c, f1, f2⟩ := env
  refine ⟨?_, ?_, ?_, ?_⟩
  · intro e he
    simp only at he
    simp [PktmonBackend.new, he]
  · intro e hc hf
    simp only at hc hf
    simp [PktmonBackend.new, hc, hf]
  · intro e hc hf1 hf2
    simp only at hc hf1 hf2
    simp [PktmonBackend.new, hc, hf1, hf2]
  · intro backend hb
    cases c with
    | error e => simp [PktmonBackend.new] at hb
    | ok u =>
      cases u
      cases f1 with
      | error e => simp [PktmonBackend.new] at hb
      | ok u =>
        cases u
        cases f2 with
        | error e => simp [PktmonBackend.new] at hb
        | ok u =>
          cases u
          simp only [PktmonBackend.new, Except.ok.injEq] at hb
          subst hb
          exact ⟨rfl, rfl, rfl, rfl⟩

/-- Witness for `pktmon_new_fail_fast`: a failing second filter install. -/
theorem pktmon_new_fail_fast_witness :
    PktmonBackend.new ⟨Except.ok (), Except.ok (), Except.error ⟨"bad"⟩⟩ =
      .error (.Filter ⟨"bad"⟩) :=
  (pktmon_new_fail_fast _).2.2.1 ⟨"bad"⟩ rfl rfl rfl

/-! ## C3: multi-device backend construction -/

/-- The device loop of `PcapBackend::new` in closed form: the successful
set is the filter-map of setup over the `Connected` devices, and the
attempted set is exactly the `Connected` devices. -/
theorem pcap_try_devices_eq (devices : List Device) :
    pcap_try_devices devices =
      (devices.filterMap (fun d =>
          if should_capture_on_device d then (setup_device_capture d).toOption
          else none),
        devices.filter (fun d => should_capture_on_device d)) := by
  induction devices with
  | nil => rfl
  | cons d rest ih =>
    by_cases h : should_capture_on_device d
    · cases hs : setup_device_capture d with
      | ok s => simp [pcap_try_devices, ih, h, hs, Except.toOption]
      | error e => simp [pcap_try_devices, ih, h, hs, Except.toOption]
    · simp [pcap_try_devices, ih, h]

/-- The successful set is empty iff no `Connected` device passes setup. -/
theorem pcap_try_devices_empty (devices : List Device) :
    (pcap_try_devices devices).1 = [] ↔
      ∀ d ∈ devices, should_capture_on_device d = true →
        (setup_device_capture d).isOk = false := by
  rw [pcap_try_devices_eq]
  simp only [List.filterMap_eq_nil_iff]
  constructor
  · intro h d hd hsd
    have hdnone := h d hd
    rw [if_pos hsd] at hdnone
    cases hset : setup_device_capture d with
    | ok s => rw [hset] at hdnone; simp [Except.toOption] at hdnone
    | error e => simp [hset, Except.isOk, Except.toBool]
  · intro h d hd
    by_cases hsd : should_capture_on_device d = true
    · rw [if_pos hsd]
      cases hset : setup_device_capture d with
      | ok s =>
        have := h d hd hsd
        rw [hset] at this
        simp [Except.isOk, Except.toBool] at this
      | error e => simp [Except.toOption]
    · rw [if_neg hsd]

/-- C3, counterexample to the quoted cause string: with an empty device
enumeration the construction fails, but the cause message the code builds
(`src/capture/pcap_backend.rs` line 70) is `"No capture device available"`,
not the claimed `"no capture device available"`. -/
theorem pcap_new_cause_spelling_counterexample :
    PcapBackend.new (.ok []) =
      .error (.Capture false ⟨"No capture device available"⟩) ∧
    PcapBackend.new (.ok []) ≠
      .error (.Capture false ⟨"no capture device available"⟩) := by
  refine ⟨rfl, ?_⟩
  decide

/-- C3, amended (cause spelled as in the code): `PcapBackend::new` on a
successful enumeration succeeds iff some `Connected` device passes capture
setup and filter installation; only `Connected` devices are attempted and
every `Connected` device is attempted; any construction error is the
no-device error `Capture{has_captured:false, "No capture device available"}`
(per-device failures are swallowed, never escalated); and that error is
returned exactly when no `Connected` device passes setup. -/
theorem pcap_new_device_selection (devices : List Device) :
    ((∃ backend, PcapBackend.new (.ok devices) = .ok backend) ↔
      ∃ d ∈ devices, should_capture_on_device d = true ∧
        (setup_device_capture d).isOk = true) ∧
    (∀ d ∈ (pcap_try_devices devices).2, should_capture_on_device d = true) ∧
    (∀ d ∈ devices, should_capture_on_device d = true →
      d ∈ (pcap_try_devices devices).2) ∧
    (∀ err, PcapBackend.new (.ok devices) = .error err →
      err = .Capture false ⟨"No capture device available"⟩) ∧
    ((∀ d ∈ devices, should_capture_on_device d = true →
        (setup_device_capture d).isOk = false) →
      PcapBackend.new (.ok devices) =
        .error (.Capture false ⟨"No capture device available"⟩)) := by
  have hnew : PcapBackend.new (.ok devices) =
      if (pcap_try_devices devices).1.isEmpty then
        .error (.Capture false ⟨"No capture device available"⟩)
      else .ok { capturing_devices := (pcap_try_devices devices).1 } := rfl
  refine ⟨?_, ?_, ?_, ?_, ?_⟩
  · constructor
    · rintro ⟨backend, hb⟩
      rw [hnew] at hb
      by_cases he : (pcap_try_devices devices).1.isEmpty
      · rw [if_pos he] at hb
        exact absurd hb (by simp)
      · have hne : (pcap_try_devices devices).1 ≠ [] := by
          simpa [List.isEmpty_iff] using he
        have hnall := (not_congr (pcap_try_devices_empty devices)).mp hne
        push_neg at hnall
        obtain ⟨d, hd, hsd, hok⟩ := hnall
        exact ⟨d, hd, hsd, by simpa using hok⟩
    · rintro ⟨d, hd, hsd, hok⟩
      have hne : (pcap_try_devices devices).1 ≠ [] := by
        intro h0
        have := (pcap_try_devices_empty devices).mp h0 d hd hsd
        rw [this] at hok
        exact Bool.false_ne_true hok
      rw [hnew, if_neg (by simpa [List.isEmpty_iff] using hne)]
      exact ⟨_, rfl⟩
  · intro d hd
    rw [pcap_try_devices_eq] at hd
    exact (List.mem_filter.mp hd).2
  · intro d hd hsd
    rw [pcap_try_devices_eq]
    exact List.mem_filter.mpr ⟨hd, hsd⟩
  · intro err herr
    rw [hnew] at herr
    by_cases he : (pcap_try_devices devices).1.isEmpty
    · rw [if_pos he] at herr
      simpa using herr.symm
    · rw [if_neg he] at herr
      exact absurd herr (by simp)
  · intro h
    have h0 : (pcap_try_devices devices).1 = [] :=
      (pcap_try_devices_empty devices).mpr h
    rw [hnew, if_pos (by simp [h0])]

/-- Witness for `pcap_new_device_selection`: one disconnected device and one
connected device whose capture handle cannot be opened — construction fails
with the no-device error. -/
theorem pcap_new_device_selection_witness :
    PcapBackend.new (.ok
        [⟨"lo", none, .Disconnected, .ok (), .ok (), .ok ()⟩,
          ⟨"eth0", some "wired", .Connected, .ok (), .error ⟨"perm"⟩, .ok ()⟩]) =
      .error (.Capture false ⟨"No capture device available"⟩) :=
  (pcap_new_device_selection _).2.2.2.2 (by decide)

/-! ## C4: per-device capture thread -/

/-- When the loop ends because a push failed (receiver dropped), every send
call it made carried a packet — never an error. -/
theorem packet_loop_go_closed (o : Nat) (reads : List ReadResult) (c : Nat)
    (hc : Bool) (h : (packet_loop_go o reads c hc).2 = .channelClosed) :
    ∀ a ∈ (packet_loop_go o reads c hc).1, ∃ data, a.payload = .ok data := by
  induction reads generalizing c hc with
  | nil => simp [packet_loop_go] at h
  | cons r rest ih =>
    cases r with
    | packet data =>
      by_cases hco : c < o
      · simp only [packet_loop_go, if_pos hco] at h ⊢
        intro a ha
        rcases List.mem_cons.mp ha with h1 | h1
        · subst h1; exact ⟨data, rfl⟩
        · exact ih (c + 1) true h a h1
      · simp only [packet_loop_go, if_neg hco] at h ⊢
        intro a ha
        have h1 := List.mem_singleton.mp ha
        subst h1
        exact ⟨data, rfl⟩
    | readError e => simp [packet_loop_go] at h

/-- When the loop ends because a device read failed, the send calls are a
run of delivered packets followed by exactly one error send whose
`has_captured` is `true` iff the loop's flag was set or a packet preceded. -/
theorem packet_loop_go_error (o : Nat) (reads : List ReadResult) (c : Nat)
    (hc : Bool) (h : (packet_loop_go o reads c hc).2 = .captureError) :
    ∃ pre e delivered,
      (packet_loop_go o reads c hc).1 =
        pre ++ [⟨.error (.Capture (hc || !pre.isEmpty) e), delivered⟩] ∧
      ∀ a ∈ pre, a.delivered = true ∧ ∃ data, a.payload = .ok data := by
  induction reads generalizing c hc with
  | nil => simp [packet_loop_go] at h
  | cons r rest ih =>
    cases r with
    | packet data =>
      by_cases hco : c < o
      · simp only [packet_loop_go, if_pos hco] at h ⊢
        obtain ⟨pre, e, delivered, htr, hpre⟩ := ih (c + 1) true h
        refine ⟨⟨.ok data, true⟩ :: pre, e, delivered, ?_, ?_⟩
        · simp [htr]
        · intro a ha
          rcases List.mem_cons.mp ha with h1 | h1
          · subst h1; exact ⟨rfl, data, rfl⟩
          · exact hpre a h1
      · simp [packet_loop_go, if_neg hco] at h
    | readError e =>
      refine ⟨[], e, decide (c < o), ?_, by simp⟩
      simp [packet_loop_go]

/-- C4: for every per-device capture thread run (`PcapBackend::packet_loop`
against a sequence of device read outcomes, with the receiver dropped after
accepting `open_for` pushes): if the loop ends on a failed push, no error
was ever sent on the queue; if the loop ends on a device read error, the
send calls are exactly the previously delivered packets followed by one
`CaptureError::Capture` whose `has_captured` is `true` iff at least one
packet was previously delivered, and the thread then terminates. -/
theorem packet_loop_thread_termination (reads : List ReadResult)
    (open_for : Nat) :
    ((packet_loop reads open_for).2 = .channelClosed →
      ∀ a ∈ (packet_loop reads open_for).1, ∃ data, a.payload = .ok data) ∧
    ((packet_loop reads open_for).2 = .captureError →
      ∃ pre e delivered,
        (packet_loop reads open_for).1 =
          pre ++ [⟨.error (.Capture (!pre.isEmpty) e), delivered⟩] ∧
        ∀ a ∈ pre, a.delivered = true ∧ ∃ data, a.payload = .ok data) := by
  constructor
  · exact packet_loop_go_closed open_for reads 0 false
  · intro h
    obtain ⟨pre, e, delivered, htr, hpre⟩ :=
      packet_loop_go_error open_for reads 0 false h
    exact ⟨pre, e, delivered, by simpa using htr, hpre⟩

/-- Witness for `packet_loop_thread_termination`: one delivered packet, then
a device read failure, with the receiver still alive. -/
theorem packet_loop_thread_termination_witness :
    ∃ pre e delivered,
      (packet_loop [.packet [1, 2], .readError ⟨"device died"⟩] 5).1 =
        pre ++ [⟨.error (.Capture (!pre.isEmpty) e), delivered⟩] ∧
      ∀ a ∈ pre, a.delivered = true ∧ ∃ data, a.payload = .ok data :=
  (packet_loop_thread_termination [.packet [1, 2], .readError ⟨"device died"⟩]
    5).2 (by decide)

/-! ## C5: freshest `webCaches` subdirectory -/

/-- Invariant of the `get_web_cache_dir` scan loop: the resulting time bound
dominates every directory entry of the list and the seed; the surviving pair
is either the seed unchanged, or a directory entry of the list whose
modification time strictly exceeds the seed time. -/
theorem scan_web_caches_spec (l : List DirEntry) (t : Nat) (p : Option String) :
    (∀ e ∈ l, e.is_dir = true → e.modified ≤ (scan_web_caches l (t, p)).1) ∧
    t ≤ (scan_web_caches l (t, p)).1 ∧
    ((scan_web_caches l (t, p)).1 = t ∧ (scan_web_caches l (t, p)).2 = p ∨
      ∃ e ∈ l, e.is_dir = true ∧
        (scan_web_caches l (t, p)).2 = some e.path ∧
        (scan_web_caches l (t, p)).1 = e.modified ∧ t < e.modified) := by
  induction l generalizing t p with
  | nil => exact ⟨by simp, Nat.le_refl t, Or.inl ⟨rfl, rfl⟩⟩
  | cons e rest ih =>
    by_cases hdir : e.is_dir
    · by_cases hmod : e.modified > t
      · obtain ⟨ih1, ih2, ih3⟩ := ih e.modified (some e.path)
        have hscab : scan_web_caches (e :: rest) (t, p) =
            scan_web_caches rest (e.modified, some e.path) := by
          simp [scan_web_caches, hdir, hmod]
        rw [hscab]
        refine ⟨?_, ?_, ?_⟩
        · intro e' he' hd'
          rcases List.mem_cons.mp he' with h | h
          · subst h; exact ih2
          · exact ih1 e' h hd'
        · exact Nat.le_trans (Nat.le_of_lt hmod) ih2
        · rcases ih3 with ⟨h1, h2⟩ | ⟨e', he', hd', hp', ht', hlt'⟩
          · exact Or.inr ⟨e, List.mem_cons_self _ _, hdir, h2, h1, hmod⟩
          · exact Or.inr ⟨e', List.mem_cons_of_mem _ he', hd', hp', ht',
              Nat.lt_trans hmod hlt'⟩
      · obtain ⟨ih1, ih2, ih3⟩ := ih t p
        have hscab : scan_web_caches (e :: rest) (t, p) =
            scan_web_caches rest (t, p) := by
          simp [scan_web_caches, hdir, hmod]
        rw [hscab]
        refine ⟨?_, ih2, ?_⟩
        · intro e' he' hd'
          rcases List.mem_cons.mp he' with h | h
          · subst h
            exact Nat.le_trans (Nat.le_of_not_lt hmod) ih2
          · exact ih1 e' h hd'
        · rcases ih3 with h | ⟨e', he', hd', hp', ht', hlt'⟩
          · exact Or.inl h
          · exact Or.inr ⟨e', List.mem_cons_of_mem _ he', hd', hp', ht', hlt'⟩
    · obtain ⟨ih1, ih2, ih3⟩ := ih t p
      have hscab : scan_web_caches (e :: rest) (t, p) =
          scan_web_caches rest (t, p) := by
        simp [scan_web_caches, hdir]
      rw [hscab]
      refine ⟨?_, ih2, ?_⟩
      · intro e' he' hd'
        rcases List.mem_cons.mp he' with h | h
        · subst h; exact absurd hd' (by simpa using hdir)
        · exact ih1 e' h hd'
      · rcases ih3 with h | ⟨e', he', hd', hp', ht', hlt'⟩
        · exact Or.inl h
        · exact Or.inr ⟨e', List.mem_cons_of_mem _ he', hd', hp', ht', hlt'⟩

/-- The scan loop is blind to non-directory entries. -/
theorem scan_web_caches_filter (l : List DirEntry) (s : Nat × Option String) :
    scan_web_caches (l.filter (fun e => e.is_dir)) s = scan_web_caches l s := by
  induction l generalizing s with
  | nil => rfl
  | cons e rest ih =>
    obtain ⟨t, p⟩ := s
    by_cases hdir : e.is_dir
    · by_cases hmod : e.modified > t
      · simp [List.filter_cons, hdir, scan_web_caches, hmod, ih]
      · simp [List.filter_cons, hdir, scan_web_caches, hmod, ih]
    · simp [List.filter_cons, hdir, scan_web_caches, ih]

/-- C5, counterexample: a `webCaches` folder whose single subdirectory has
modification time exactly `UNIX_EPOCH`. Because the loop seeds `latest_dir`
with `UNIX_EPOCH` and only replaces it on a strictly greater time
(`src/wish.rs` line 185), the subdirectory is never selected and
`get_web_cache_dir` fails even though a subdirectory exists — contradicting
the claim that any folder with at least one subdirectory yields the
greatest-mtime subdirectory. -/
theorem get_web_cache_dir_epoch_counterexample :
    get_web_cache_dir [⟨"webCaches/2.30.5.0", true, 0⟩] =
      .error ⟨"Unable to find directory in webCaches"⟩ ∧
    get_web_cache_dir [⟨"webCaches/2.30.5.0", true, 0⟩] ≠
      .ok "webCaches/2.30.5.0" := by
  refine ⟨rfl, ?_⟩
  decide

/-- C5, amended: for every `webCaches` folder containing at least one
subdirectory modified strictly after `UNIX_EPOCH`, `get_web_cache_dir`
selects a subdirectory with the greatest modification time, regardless of
its name; non-directory entries are ignored (filtering them away does not
change the result); and when no entry is a subdirectory the step fails
(and is retried on the next event, the error being propagated to the
caller's logged retry path). -/
theorem get_web_cache_dir_freshest (entries : List DirEntry) :
    ((∃ e ∈ entries, e.is_dir = true ∧ 0 < e.modified) →
      ∃ e ∈ entries, e.is_dir = true ∧
        get_web_cache_dir entries = .ok e.path ∧
        ∀ e' ∈ entries, e'.is_dir = true → e'.modified ≤ e.modified) ∧
    get_web_cache_dir (entries.filter (fun e => e.is_dir)) =
      get_web_cache_dir entries ∧
    ((∀ e ∈ entries, e.is_dir = false) →
      get_web_cache_dir entries =
        .error ⟨"Unable to find directory in webCaches"⟩) := by
  obtain ⟨h1, _h2, h3⟩ := scan_web_caches_spec entries 0 none
  refine ⟨?_, ?_, ?_⟩
  · rintro ⟨e0, he0, hd0, hm0⟩
    rcases h3 with ⟨ht, _⟩ | ⟨e, he, hd, hp, ht, _⟩
    · exact absurd (h1 e0 he0 hd0) (by omega)
    · refine ⟨e, he, hd, by simp [get_web_cache_dir, hp], ?_⟩
      intro e' he' hd'
      have := h1 e' he' hd'
      omega
  · simp [get_web_cache_dir, scan_web_caches_filter]
  · intro hall
    rcases h3 with ⟨_, hp⟩ | ⟨e, he, hd, _⟩
    · simp [get_web_cache_dir, hp]
    · rw [hall e he] at hd
      simp at hd

/-- Witness for `get_web_cache_dir_freshest` on a folder with one file and
two subdirectories of differing modification times. -/
theorem get_web_cache_dir_freshest_witness :
    ∃ e ∈ ([⟨"webCaches/file", false, 99⟩, ⟨"webCaches/2.1.0.0", true, 5⟩,
        ⟨"webCaches/2.2.0.0", true, 7⟩] : List DirEntry),
      e.is_dir = true ∧
      get_web_cache_dir [⟨"webCaches/file", false, 99⟩,
          ⟨"webCaches/2.1.0.0", true, 5⟩, ⟨"webCaches/2.2.0.0", true, 7⟩] =
        .ok e.path ∧
      ∀ e' ∈ ([⟨"webCaches/file", false, 99⟩, ⟨"webCaches/2.1.0.0", true, 5⟩,
          ⟨"webCaches/2.2.0.0", true, 7⟩] : List DirEntry),
        e'.is_dir = true → e'.modified ≤ e.modified :=
  (get_web_cache_dir_freshest _).1 (by decide)

/-! ## Publication invariant machinery (for C6) -/

theorem publishes_append (a b : List Action) :
    publishes (a ++ b) = publishes a ++ publishes b := by
  induction a with
  | nil => rfl
  | cons x rest ih => cases x <;> simp [publishes, ih]

theorem lastPub_append (p : String) (u1 u2 : List String) :
    lastPub p (u1 ++ u2) = lastPub (lastPub p u1) u2 := by
  induction u1 generalizing p with
  | nil => rfl
  | cons u rest ih => simp [lastPub, ih]

theorem distinctFrom_append (p : String) (u1 u2 : List String) :
    distinctFrom p (u1 ++ u2) =
      (distinctFrom p u1 && distinctFrom (lastPub p u1) u2) := by
  induction u1 generalizing p with
  | nil => simp [distinctFrom, lastPub]
  | cons u rest ih => simp [distinctFrom, lastPub, ih, Bool.and_assoc]

theorem distinctFrom_iff_chain (p : String) (l : List String) :
    distinctFrom p l = true ↔ List.Chain' (fun a b => a ≠ b) (p :: l) := by
  induction l generalizing p with
  | nil => simp [distinctFrom]
  | cons u rest ih =>
    rw [List.chain'_cons, distinctFrom]
    constructor
    · intro h
      have h' := Bool.and_eq_true_iff.mp h
      exact ⟨by simpa [ne_comm] using h'.1, (ih u).mp h'.2⟩
    · intro ⟨h1, h2⟩
      exact Bool.and_eq_true_iff.mpr ⟨by simpa [ne_comm] using h1, (ih u).mpr h2⟩

theorem pubseq_refl (p : String) : PubSeq p [] p := ⟨rfl, rfl⟩

theorem pubseq_single (p u : String) (h : u ≠ p) : PubSeq p [u] u :=
  ⟨by simp [distinctFrom, h], rfl⟩

theorem pubseq_append (p q r : String) (u1 u2 : List String)
    (h1 : PubSeq p u1 q) (h2 : PubSeq q u2 r) : PubSeq p (u1 ++ u2) r := by
  obtain ⟨c1, l1⟩ := h1
  obtain ⟨c2, l2⟩ := h2
  refine ⟨?_, ?_⟩
  · rw [distinctFrom_append, c1, l1, c2]
    rfl
  · rw [lastPub_append, l1, l2]

/-- Each run of `handle_web_cache_dir_update` publishes nothing (leaving
`prev_url` alone) or exactly one URL different from the incoming `prev_url`
(recording it in `prev_url`). -/
theorem handle_web_cache_dir_update_pubseq (st : WishState)
    (env : CacheUpdateEnv) :
    PubSeq st.prev_url (publishes (handle_web_cache_dir_update st env).2.1)
      (handle_web_cache_dir_update st env).1.prev_url := by
  cases hw : st.web_cache_path with
  | none =>
    simp [handle_web_cache_dir_update, hw, publishes]
    exact pubseq_refl _
  | some p =>
    cases hr : env.read_matches with
    | none =>
      simp [handle_web_cache_dir_update, hw, hr, publishes]
      exact pubseq_refl _
    | some ms =>
      cases hl : ms.getLast? with
      | none =>
        simp [handle_web_cache_dir_update, hw, hr, hl, publishes]
        exact pubseq_refl _
      | some u =>
        by_cases hu : u = st.prev_url
        · simp [handle_web_cache_dir_update, hw, hr, hl, hu, publishes]
          exact pubseq_refl _
        · cases hv : env.validate_result with
          | error e =>
            simp [handle_web_cache_dir_update, hw, hr, hl, hu, hv, publishes]
            exact pubseq_refl _
          | ok u0 =>
            cases u0
            simp [handle_web_cache_dir_update, hw, hr, hl, hu, hv, publishes]
            exact pubseq_single _ _ hu

/-- Each run of `handle_log_update` has the publication behaviour of its
inner `handle_web_cache_dir_update` run. -/
theorem handle_log_update_pubseq (st : WishState) (env : LogUpdateEnv) :
    PubSeq st.prev_url (publishes (handle_log_update st env).2.1)
      (handle_log_update st env).1.prev_url := by
  cases hp : get_web_cache_path env with
  | error e =>
    simp [handle_log_update, hp, publishes]
    exact pubseq_refl _
  | ok path =>
    have hstep := handle_web_cache_dir_update_pubseq
      { st with web_cache_path := some path } env.cache_env
    cases hw : st.web_cache_path with
    | none =>
      cases hres : (handle_web_cache_dir_update
          { st with web_cache_path := some path } env.cache_env).2.2 with
      | error e =>
        simpa [handle_log_update, hp, hw, hres, publishes_append, publishes]
          using hstep
      | ok u0 =>
        cases u0
        simpa [handle_log_update, hp, hw, hres, publishes_append, publishes]
          using hstep
    | some old =>
      cases hres : (handle_web_cache_dir_update
          { st with web_cache_path := some path } env.cache_env).2.2 with
      | error e =>
        simpa [handle_log_update, hp, hw, hres, publishes_append, publishes]
          using hstep
      | ok u0 =>
        cases u0
        simpa [handle_log_update, hp, hw, hres, publishes_append, publishes]
          using hstep

/-- Each event dispatch has the publication behaviour of the handler it
runs. -/
theorem handle_event_pubseq (st : WishState) (ev : DebEvent) :
    PubSeq st.prev_url (publishes (handle_event st ev).2)
      (handle_event st ev).1.prev_url := by
  by_cases hpath : ev.path = st.output_log_path
  · have hstep := handle_log_update_pubseq st ev.log_env
    cases hres : (handle_log_update st ev.log_env).2.2 with
    | error e =>
      simpa [handle_event, hpath, hres, publishes_append, publishes] using hstep
    | ok u0 =>
      cases u0
      simpa [handle_event, hpath, hres, publishes_append, publishes] using hstep
  · cases hw : st.web_cache_path with
    | none =>
      simp [handle_event, hpath, hw, publishes]
      exact pubseq_refl _
    | some dir =>
      by_cases hp2 : ev.path = dir
      · have hstep := handle_web_cache_dir_update_pubseq st ev.cache_env
        have hpath2 : ¬ dir = st.output_log_path := by
          rw [← hp2]; exact hpath
        cases hres : (handle_web_cache_dir_update st ev.cache_env).2.2 with
        | error e =>
          simpa [handle_event, hpath, hpath2, hw, hp2, hres, publishes_append,
            publishes] using hstep
        | ok u0 =>
          cases u0
          simpa [handle_event, hpath, hpath2, hw, hp2, hres, publishes_append,
            publishes] using hstep
      · simp [handle_event, hpath, hw, hp2, publishes]
        exact pubseq_refl _

/-- A whole event batch composes the per-event publication behaviour. -/
theorem handle_events_pubseq (events : List DebEvent) (st : WishState) :
    PubSeq st.prev_url (publishes (handle_events st events).2)
      (handle_events st events).1.prev_url := by
  induction events generalizing st with
  | nil => exact pubseq_refl _
  | cons ev rest ih =>
    have h1 := handle_event_pubseq st ev
    have h2 := ih (handle_event st ev).1
    have := pubseq_append _ _ _ _ _ h1 h2
    simpa [handle_events, publishes_append] using this

/-- The event loop composes batch publication behaviour. -/
theorem monitor_loop_pubseq (stream : List (Except (List AnyError)
    (List DebEvent))) (st : WishState) :
    PubSeq st.prev_url (publishes (monitor_loop st stream).2)
      (monitor_loop st stream).1.prev_url := by
  induction stream generalizing st with
  | nil => exact pubseq_refl _
  | cons item rest ih =>
    cases item with
    | error errs => exact pubseq_refl _
    | ok events =>
      have h1 := handle_events_pubseq events st
      have h2 := ih (handle_events st events).1
      have := pubseq_append _ _ _ _ _ h1 h2
      simpa [monitor_loop, publishes_append] using this

/-- The whole monitor run composes the initial log handling with the loop. -/
theorem monitor_pubseq (st : WishState) (menv : MonitorEnv)
    (stream : List (Except (List AnyError) (List DebEvent))) :
    PubSeq st.prev_url (publishes (monitor st menv stream).2.1)
      (monitor st menv stream).1.prev_url := by
  cases hwtch : menv.initial_watch with
  | error e =>
    simp [monitor, hwtch, publishes]
    exact pubseq_refl _
  | ok u0 =>
    cases u0
    have h1 := handle_log_update_pubseq st menv.initial_log_env
    have h2 := monitor_loop_pubseq stream
      (handle_log_update st menv.initial_log_env).1
    have hcomp := pubseq_append _ _ _ _ _ h1 h2
    cases hres : (handle_log_update st menv.initial_log_env).2.2 with
    | error e =>
      simpa [monitor, hwtch, hres, publishes_append, publishes] using hcomp
    | ok u0 =>
      cases u0
      simpa [monitor, hwtch, hres, publishes_append, publishes] using hcomp

/-! ## C6: unchanged URL is neither revalidated nor republished -/

/-- C6: when the URL extracted from the cache file (the last pattern match)
equals `prev_url`, `handle_web_cache_dir_update` returns `Ok` having only
read the file — its trace holds no `validate` network call and no `publish`,
and the state is unchanged (`src/wish.rs` lines 148-151). Consequently, over
any whole monitor run, the sequence of URLs sent on `url_tx` never repeats a
value twice in a row (nor re-sends the initial `prev_url` first). -/
theorem wish_url_unchanged_no_revalidation (st : WishState)
    (env : CacheUpdateEnv) (menv : MonitorEnv)
    (stream : List (Except (List AnyError) (List DebEvent))) :
    (∀ p ms u, st.web_cache_path = some p → env.read_matches = some ms →
      ms.getLast? = some u → u = st.prev_url →
      handle_web_cache_dir_update st env = (st, [.extract p], .ok ())) ∧
    List.Chain' (fun a b => a ≠ b)
      (st.prev_url :: publishes (monitor st menv stream).2.1) := by
  constructor
  · intro p ms u hp hr hl hu
    simp [handle_web_cache_dir_update, hp, hr, hl, hu]
  · exact (distinctFrom_iff_chain _ _).mp (monitor_pubseq st menv stream).1

/-- Witness for `wish_url_unchanged_no_revalidation`: re-extracting the
already-published URL returns at once, even though validation would fail. -/
theorem wish_url_unchanged_no_revalidation_witness :
    handle_web_cache_dir_update
        ⟨"log", some "cachefile", "https://u/webview_gacha?game_biz="⟩
        ⟨some ["https://u/webview_gacha?game_biz="], .error ⟨"net down"⟩⟩ =
      (⟨"log", some "cachefile", "https://u/webview_gacha?game_biz="⟩,
        [.extract "cachefile"], .ok ()) :=
  (wish_url_unchanged_no_revalidation _ _ ⟨.ok (), ⟨none, none, ⟨none, .ok ()⟩⟩⟩
    []).1 "cachefile" ["https://u/webview_gacha?game_biz="]
    "https://u/webview_gacha?game_biz=" rfl rfl rfl rfl

/-! ## C7: validation failure changes nothing and the loop continues -/

/-- C7: when validation of a freshly extracted URL fails,
`handle_web_cache_dir_update` returns the error with `prev_url` (indeed the
whole state) unchanged and nothing sent on `url_tx`; in the event loop the
failure is only logged, and the loop goes on to process the remaining
stream from the same state. -/
theorem validation_failure_preserves_state (st : WishState)
    (env : CacheUpdateEnv) (p : String) (ms : List String) (u : String)
    (e : AnyError) (ev : DebEvent)
    (rest : List (Except (List AnyError) (List DebEvent)))
    (hp : st.web_cache_path = some p) (hr : env.read_matches = some ms)
    (hl : ms.getLast? = some u) (hu : ¬ u = st.prev_url)
    (hv : env.validate_result = .error e) (hevp : ev.path = p)
    (hnotlog : ¬ ev.path = st.output_log_path) (hevenv : ev.cache_env = env) :
    handle_web_cache_dir_update st env =
      (st, [.extract p, .validate u], .error e) ∧
    monitor_loop st (.ok [ev] :: rest) =
      ((monitor_loop st rest).1,
        Action.extract p :: Action.validate u ::
          Action.logInfo ("no url found in web cache dir: " ++ e.msg) ::
          (monitor_loop st rest).2) := by
  have h1 : handle_web_cache_dir_update st env =
      (st, [.extract p, .validate u], .error e) := by
    simp [handle_web_cache_dir_update, hp, hr, hl, hu, hv]
  have hpath2 : ¬ p = st.output_log_path := by
    rw [← hevp]; exact hnotlog
  have hev : handle_event st ev =
      (st, [Action.extract p, Action.validate u,
        Action.logInfo ("no url found in web cache dir: " ++ e.msg)]) := by
    simp [handle_event, hnotlog, hpath2, hp, hevp, hevenv, h1]
  exact ⟨h1, by simp [monitor_loop, handle_events, hev]⟩

/-- Witness for `validation_failure_preserves_state`: a failing validation
on a fresh URL, inside a one-event batch followed by a closed channel. -/
theorem validation_failure_preserves_state_witness :
    handle_web_cache_dir_update ⟨"log", some "cachefile", ""⟩
        ⟨some ["https://u/webview_gacha?game_biz="], .error ⟨"retcode -101"⟩⟩ =
      (⟨"log", some "cachefile", ""⟩,
        [.extract "cachefile", .validate "https://u/webview_gacha?game_biz="],
        .error ⟨"retcode -101"⟩) :=
  (validation_failure_preserves_state ⟨"log", some "cachefile", ""⟩
    ⟨some ["https://u/webview_gacha?game_biz="], .error ⟨"retcode -101"⟩⟩
    "cachefile" ["https://u/webview_gacha?game_biz="]
    "https://u/webview_gacha?game_biz=" ⟨"retcode -101"⟩
    ⟨"cachefile", ⟨none, none, ⟨none, .ok ()⟩⟩,
      ⟨some ["https://u/webview_gacha?game_biz="], .error ⟨"retcode -101"⟩⟩⟩
    [] rfl rfl rfl (by decide) rfl rfl (by decide) rfl).1

/-! ## C8: only the last URL occurrence is considered and published -/

/-- C8: for a cache file whose content holds two or more matches of the URL
pattern, only the last match is ever validated, only the last match is ever
published, and when it is fresh and validation succeeds it is in fact
published and recorded in `prev_url`. -/
theorem last_url_occurrence_published (st : WishState) (env : CacheUpdateEnv)
    (p : String) (ms : List String) (u : String)
    (hp : st.web_cache_path = some p) (hr : env.read_matches = some ms)
    (_hlen : 2 ≤ ms.length) (hl : ms.getLast? = some u) :
    (∀ v, Action.validate v ∈ (handle_web_cache_dir_update st env).2.1 →
      v = u) ∧
    (∀ v, Action.publish v ∈ (handle_web_cache_dir_update st env).2.1 →
      v = u) ∧
    (¬ u = st.prev_url → env.validate_result = .ok () →
      publishes (handle_web_cache_dir_update st env).2.1 = [u] ∧
      (handle_web_cache_dir_update st env).1.prev_url = u) := by
  by_cases hu : u = st.prev_url
  · refine ⟨?_, ?_, ?_⟩
    · intro v hvv
      simp [handle_web_cache_dir_update, hp, hr, hl, hu] at hvv
    · intro v hvv
      simp [handle_web_cache_dir_update, hp, hr, hl, hu] at hvv
    · intro hu' _
      exact absurd hu hu'
  · cases hv : env.validate_result with
    | error e =>
      refine ⟨?_, ?_, ?_⟩
      · intro v hvv
        simp [handle_web_cache_dir_update, hp, hr, hl, hu, hv] at hvv
        exact hvv
      · intro v hvv
        simp [handle_web_cache_dir_update, hp, hr, hl, hu, hv] at hvv
      · intro _ hok
        exact absurd hok (by simp)
    | ok u0 =>
      cases u0
      refine ⟨?_, ?_, ?_⟩
      · intro v hvv
        simp [handle_web_cache_dir_update, hp, hr, hl, hu, hv] at hvv
        exact hvv
      · intro v hvv
        simp [handle_web_cache_dir_update, hp, hr, hl, hu, hv] at hvv
        exact hvv
      · intro _ _
        simp [handle_web_cache_dir_update, hp, hr, hl, hu, hv, publishes]

/-- Witness for `last_url_occurrence_published`: a cache file with two URL
occurrences publishes only the second one. -/
theorem last_url_occurrence_published_witness :
    publishes (handle_web_cache_dir_update ⟨"log", some "cachefile", ""⟩
        ⟨some ["https://old/webview_gacha?game_biz=",
          "https://new/webview_gacha?game_biz="], .ok ()⟩).2.1 =
      ["https://new/webview_gacha?game_biz="] ∧
    (handle_web_cache_dir_update ⟨"log", some "cachefile", ""⟩
        ⟨some ["https://old/webview_gacha?game_biz=",
          "https://new/webview_gacha?game_biz="], .ok ()⟩).1.prev_url =
      "https://new/webview_gacha?game_biz=" :=
  (last_url_occurrence_published ⟨"log", some "cachefile", ""⟩
    ⟨some ["https://old/webview_gacha?game_biz=",
      "https://new/webview_gacha?game_biz="], .ok ()⟩
    "cachefile"
    ["https://old/webview_gacha?game_biz=",
      "https://new/webview_gacha?game_biz="]
    "https://new/webview_gacha?game_biz=" rfl rfl (by decide) rfl).2.2
    (by decide) rfl

/-! ## C9: unwatch old, watch new, extract immediately -/

/-- Whenever a cache path is set, the trace of
`handle_web_cache_dir_update` begins with the extraction attempt on it. -/
theorem handle_web_cache_dir_update_extract (st : WishState)
    (env : CacheUpdateEnv) (p : String) (hp : st.web_cache_path = some p) :
    ∃ tail, (handle_web_cache_dir_update st env).2.1 =
      Action.extract p :: tail := by
  cases hr : env.read_matches with
  | none => exact ⟨[], by simp [handle_web_cache_dir_update, hp, hr]⟩
  | some ms =>
    cases hl : ms.getLast? with
    | none => exact ⟨[], by simp [handle_web_cache_dir_update, hp, hr, hl]⟩
    | some u =>
      by_cases hu : u = st.prev_url
      · exact ⟨[], by simp [handle_web_cache_dir_update, hp, hr, hl, hu]⟩
      · cases hv : env.validate_result with
        | error e =>
          exact ⟨[.validate u],
            by simp [handle_web_cache_dir_update, hp, hr, hl, hu, hv]⟩
        | ok u0 =>
          cases u0
          exact ⟨[.validate u, .publish u],
            by simp [handle_web_cache_dir_update, hp, hr, hl, hu, hv]⟩

/-- C9: on every cache-path replacement triggered by a log update (an old
path was watched and a new one was computed), `handle_log_update`'s trace
unwatches the old path first, then watches the new path, then immediately
attempts extraction from the new path — all within the same invocation,
before any further filesystem event. -/
theorem cache_path_replacement_order (st : WishState) (env : LogUpdateEnv)
    (old_path new_path : String)
    (hold : st.web_cache_path = some old_path)
    (hnew : get_web_cache_path env = .ok new_path) :
    ∃ tail, (handle_log_update st env).2.1 =
      Action.unwatch old_path :: Action.watch new_path ::
        Action.extract new_path :: tail := by
  obtain ⟨tail2, htail2⟩ := handle_web_cache_dir_update_extract
    { st with web_cache_path := some new_path } env.cache_env new_path rfl
  cases hres : (handle_web_cache_dir_update
      { st with web_cache_path := some new_path } env.cache_env).2.2 with
  | error e =>
    exact ⟨tail2 ++
        [Action.logInfo ("no url found in web cache dir: " ++ e.msg)],
      by simp [handle_log_update, hnew, hold, htail2, hres]⟩
  | ok u0 =>
    cases u0
    exact ⟨tail2, by simp [handle_log_update, hnew, hold, htail2, hres]⟩

/-- Witness for `cache_path_replacement_order` on a concrete session
switch. -/
theorem cache_path_replacement_order_witness :
    ∃ tail, (handle_log_update ⟨"log", some "oldCache", ""⟩
        ⟨some [some "C:/G/GenshinImpact_Data"],
          some [⟨"webCaches/2.0", true, 3⟩], ⟨none, .ok ()⟩⟩).2.1 =
      Action.unwatch "oldCache" ::
        Action.watch "webCaches/2.0/Cache/Cache_Data/data_2" ::
        Action.extract "webCaches/2.0/Cache/Cache_Data/data_2" :: tail :=
  cache_path_replacement_order ⟨"log", some "oldCache", ""⟩
    ⟨some [some "C:/G/GenshinImpact_Data"],
      some [⟨"webCaches/2.0", true, 3⟩], ⟨none, .ok ()⟩⟩
    "oldCache" "webCaches/2.0/Cache/Cache_Data/data_2" rfl (by decide)

/-! ## C10: a watcher-error batch silently ends the monitor -/

/-- The event loop never looks past the first `Err` batch: everything after
it — including the batch itself — is discarded without any state change,
action, or log entry. -/
theorem monitor_loop_stops_at_error (st : WishState)
    (pre : List (Except (List AnyError) (List DebEvent)))
    (errs : List AnyError)
    (suf : List (Except (List AnyError) (List DebEvent))) :
    monitor_loop st (pre ++ .error errs :: suf) = monitor_loop st pre := by
  induction pre generalizing st with
  | nil => rfl
  | cons item rest ih =>
    cases item with
    | error es => rfl
    | ok events => simp [monitor_loop, ih]

/-- C10: once `Wish::monitor` has entered its event loop, receiving a batch
of watcher errors ends the loop: the run is exactly the run that would have
happened had the channel closed there instead (no extra action, no log
entry for the errors, later events never processed — URL discovery stops
for good), and `monitor` returns `Ok(())`. -/
theorem monitor_watcher_error_ends_loop (st : WishState) (menv : MonitorEnv)
    (pre : List (Except (List AnyError) (List DebEvent)))
    (errs : List AnyError)
    (suf : List (Except (List AnyError) (List DebEvent)))
    (hw : menv.initial_watch = .ok ()) :
    monitor st menv (pre ++ .error errs :: suf) = monitor st menv pre ∧
    (monitor st menv (pre ++ .error errs :: suf)).2.2 = .ok () := by
  constructor
  · simp [monitor, hw, monitor_loop_stops_at_error]
  · simp [monitor, hw]

/-- Witness for `monitor_watcher_error_ends_loop`: an error batch right
after the initial proactive scan, with one more batch behind it. -/
theorem monitor_watcher_error_ends_loop_witness :
    monitor ⟨"log", none, ""⟩ ⟨.ok (), ⟨none, none, ⟨none, .ok ()⟩⟩⟩
        ([] ++ .error [⟨"watch overflow"⟩] :: [.ok []]) =
      monitor ⟨"log", none, ""⟩ ⟨.ok (), ⟨none, none, ⟨none, .ok ()⟩⟩⟩ [] ∧
    (monitor ⟨"log", none, ""⟩ ⟨.ok (), ⟨none, none, ⟨none, .ok ()⟩⟩⟩
        ([] ++ .error [⟨"watch overflow"⟩] :: [.ok []])).2.2 = .ok () :=
  monitor_watcher_error_ends_loop ⟨"log", none, ""⟩
    ⟨.ok (), ⟨none, none, ⟨none, .ok ()⟩⟩⟩ [] [⟨"watch overflow"⟩] [.ok []] rfl

end Irminsul
